import Mathlib

/-!
Shallow embedding of the XML-parsing core of a UPnP/DLNA client
(src/parser.rs) and proofs about its extractors.

Modelling conventions:
* XML event streams (the xml-rs `EventReader` output) are lists of `XmlEvt`
  values; a well-formedness error raised by the reader is an `XmlEvt.error`
  element of the stream, other unhandled event kinds are `XmlEvt.other`.
* Tree-parsed documents (the `elementtree::Element` values) are `Element`
  trees; `Element.findE` models `Element::find` (first child with the given
  qualified tag) and `Element.text` models `Element::text`.
* Rust `Result` values together with the possibility of a panic are
  modelled by `RResult`: `ok`, `err` (an `anyhow` error or a numeric parse
  error) and `panicked` (an index-out-of-range or `Option::unwrap` panic).
* Machine integers (`u8`, `u32`) are `Nat` with explicit bounds: the Rust
  `str::parse` for an unsigned integer type of maximum `m` is
  `rustParseUnsigned m`, and `u32` arithmetic is reduced modulo `2 ^ 32`.
* Rust byte slicing of strings (`&s[a..b]`) is modelled on the character
  sequence (`sliceRange`); for the ASCII data these parsers handle, byte
  indices and character indices coincide.
* Network fetches and the external `url` crate are not part of the parsing
  core; functions that use them (`parse_services`, `parse_location`) are
  parameterised by a `join` function (models `Url::parse`/`Url::join` in
  `build_absolute_url`) and a `fetch` function (models the sequential
  fetch-and-parse of each SCPD document by `parse_service_description`).
-/

namespace UpnpParser

/-! ## String utilities mirroring the Rust standard library -/

/-- One step of `rsplitChar`: accumulate characters until the separator. -/
def rsplitCharAux (sep : Char) : List Char → List Char → List String
  | [], acc => [String.mk acc.reverse]
  | c :: rest, acc =>
    if c = sep then String.mk acc.reverse :: rsplitCharAux sep rest []
    else rsplitCharAux sep rest (c :: acc)

/-- Rust `str::split(sep)` collected to a list: the empty string yields
one empty-string entry, `n` separators yield `n + 1` entries. -/
def rsplitChar (sep : Char) (s : String) : List String :=
  rsplitCharAux sep s.data []

/-- Rust `str::replace(sep, "")`: drop every occurrence of a character. -/
def stripChar (sep : Char) (s : String) : String :=
  String.mk (s.data.filter (fun c => c ≠ sep))

/-- Rust `Vec::join(sep)` for a vector of strings. -/
def joinWith (sep : String) : List String → String
  | [] => ""
  | [x] => x
  | x :: y :: rest => x ++ sep ++ joinWith sep (y :: rest)

/-- List version of substring containment: does `needle` occur at the head? -/
def headMatches : List Char → List Char → Bool
  | [], _ => true
  | _ :: _, [] => false
  | n :: ns, h :: hs => n = h && headMatches ns hs

/-- List version of Rust `str::contains(needle)` (substring search). -/
def containsSubL (hay needle : List Char) : Bool :=
  match hay with
  | [] => needle.isEmpty
  | _ :: rest => headMatches needle hay || containsSubL rest needle

/-- Rust `str::contains` on a string pattern: substring containment. -/
def containsSub (hay needle : String) : Bool :=
  containsSubL hay.data needle.data

/-- Rust byte slicing `&s[a..b]` (modelled on characters): `none` means the
slice panics because the upper index is out of range. -/
def sliceRange (s : String) (a b : Nat) : Option String :=
  if b ≤ s.data.length then some (String.mk ((s.data.drop a).take (b - a)))
  else none

/-- Accumulate decimal digits; `none` on the first non-digit character. -/
def parseDigits : List Char → Nat → Option Nat
  | [], acc => some acc
  | c :: rest, acc =>
    if c.isDigit then parseDigits rest (acc * 10 + (c.toNat - 48))
    else none

/-- Rust `str::parse` for an unsigned integer type with maximum value
`max`: an optional leading plus sign, then at least one decimal digit, and
the value must not exceed `max` (overflow is a parse error). -/
def rustParseUnsigned (max : Nat) (s : String) : Option Nat :=
  let cs := match s.data with
    | '+' :: rest => rest
    | cs => cs
  match cs with
  | [] => none
  | _ =>
    match parseDigits cs 0 with
    | some n => if n ≤ max then some n else none
    | none => none

/-- Maximum value of `u8`. -/
def u8max : Nat := 255

/-- Maximum value of `u32`. -/
def u32max : Nat := 4294967295

/-- Maximum value of `u64` (used for the integer byte count of `Item.size`,
whose exact width is declared in `types.rs`; modelled from the spec:
`size? : integer byte count`). -/
def u64max : Nat := 18446744073709551615

/-- Modulus for wrapping `u32` arithmetic. -/
def u32mod : Nat := 4294967296

/-! ## XML event streams and Rust results -/

/-- One event of the xml-rs pull parser, restricted to what the code
inspects: start tags carry the local name and the attribute list (local
attribute name paired with value), end tags carry the local name, character
data carries its text. `error` stands for an `Err` item yielded by the
reader on malformed XML, `other` for every remaining event kind. -/
inductive XmlEvt where
  | start (name : String) (attrs : List (String × String))
  | endEl (name : String)
  | chars (text : String)
  | error
  | other
deriving DecidableEq

/-- Error values observable through `anyhow::Result` in the parser:
`parseIntError` is a failed numeric conversion (`ParseIntError` through
the question-mark operator), `anyhowMsg` is an error built by the
`anyhow!` macro with the given message. -/
inductive RErr where
  | parseIntError
  | anyhowMsg (msg : String)
deriving DecidableEq

/-- A Rust computation that can return a value, return an error, or
panic. -/
inductive RResult (α : Type) where
  | ok (a : α)
  | err (e : RErr)
  | panicked (msg : String)
deriving DecidableEq

/-- Pure fold over an event stream: the shape of every extractor loop that
contains no fallible operation. -/
def foldEvts (step : σ → XmlEvt → σ) : σ → List XmlEvt → σ
  | s, [] => s
  | s, e :: rest => foldEvts step (step s e) rest

/-- Fallible fold over an event stream: the shape of the extractor loops
that can fail or panic mid-stream (the question-mark operator or an
`unwrap`). -/
def foldEvtsR (step : σ → XmlEvt → RResult σ) : σ → List XmlEvt → RResult σ
  | s, [] => .ok s
  | s, e :: rest =>
    match step s e with
    | .ok s2 => foldEvtsR step s2 rest
    | .err e2 => .err e2
    | .panicked m => .panicked m

/-- Replace the last element of a list, the effect of a mutation through
`Vec::last_mut` when the vector is non-empty; on the empty list this is the
identity (the `if let Some` pattern skips). -/
def updateLast (f : α → α) : List α → List α
  | [] => []
  | [x] => [f x]
  | x :: y :: rest => x :: updateLast f (y :: rest)

/-! ## The scalar extractors (src/parser.rs lines 220 to 341) -/

/-- Loop state of `parse_volume`. -/
structure VolSt where
  in_current_volume : Bool
  current_volume : Option Nat
deriving DecidableEq

/-- One event of the `parse_volume` loop: track being inside
`CurrentVolume`, and parse character data seen there as a `u8`; a failed
parse aborts with `ParseIntError` through the question-mark operator. -/
def volStep (s : VolSt) : XmlEvt → RResult VolSt
  | .start n _ =>
    .ok { s with in_current_volume := if n = "CurrentVolume" then true else s.in_current_volume }
  | .endEl n =>
    .ok { s with in_current_volume := if n = "CurrentVolume" then false else s.in_current_volume }
  | .chars v =>
    if s.in_current_volume then
      match rustParseUnsigned u8max v with
      | some n => .ok { s with current_volume := some n }
      | none => .err .parseIntError
    else .ok s
  | _ => .ok s

/-- Model of `parse_volume` (lines 220 to 245): scan for the text of
`CurrentVolume`, parse it as a `u8`; if the element never carried text the
result is the incomplete-response error. -/
def parse_volume (evts : List XmlEvt) : RResult Nat :=
  match foldEvtsR volStep ⟨false, none⟩ evts with
  | .ok s =>
    match s.current_volume with
    | some v => .ok v
    | none => .err (.anyhowMsg "Invalid response from device")
  | .err e => .err e
  | .panicked m => .panicked m

/-- Loop state of `parse_duration`. -/
structure DurSt where
  in_duration : Bool
  duration : Option String
deriving DecidableEq

/-- One event of the `parse_duration` loop: character data seen inside
`MediaDuration` is stored with every colon removed. -/
def durStep (s : DurSt) : XmlEvt → DurSt
  | .start n _ =>
    { s with in_duration := if n = "MediaDuration" then true else s.in_duration }
  | .endEl n =>
    { s with in_duration := if n = "MediaDuration" then false else s.in_duration }
  | .chars v =>
    if s.in_duration then { s with duration := some (stripChar ':' v) } else s
  | _ => s

/-- Conversion step of `parse_duration` (lines 274 to 277): slice the
stripped text at fixed offsets 0..2, 2..4, 4..6, parse each slice as a
`u32`, and combine; a slice whose upper byte index exceeds the length
panics, a failed numeric parse is a `ParseIntError`. -/
def duration_to_secs (d : String) : RResult Nat :=
  match sliceRange d 0 2 with
  | none => .panicked "byte index out of range"
  | some hs =>
    match rustParseUnsigned u32max hs with
    | none => .err .parseIntError
    | some hours =>
      match sliceRange d 2 4 with
      | none => .panicked "byte index out of range"
      | some ms =>
        match rustParseUnsigned u32max ms with
        | none => .err .parseIntError
        | some minutes =>
          match sliceRange d 4 6 with
          | none => .panicked "byte index out of range"
          | some ss =>
            match rustParseUnsigned u32max ss with
            | none => .err .parseIntError
            | some seconds =>
              .ok ((hours * 3600 + minutes * 60 + seconds) % u32mod)

/-- Model of `parse_duration` (lines 247 to 278): capture the colon-stripped
text of `MediaDuration`, then convert with `duration_to_secs`; a document
with no captured text is the incomplete-response error. -/
def parse_duration (evts : List XmlEvt) : RResult Nat :=
  match (foldEvts durStep ⟨false, none⟩ evts).duration with
  | none => .err (.anyhowMsg "Invalid response from device")
  | some d => duration_to_secs d

/-- Loop state of `parse_position`. -/
structure PosSt where
  in_position : Bool
  position : Option String
deriving DecidableEq

/-- One event of the `parse_position` loop: store character data seen
inside `RelTime` verbatim. -/
def posStep (s : PosSt) : XmlEvt → PosSt
  | .start n _ =>
    { s with in_position := if n = "RelTime" then true else s.in_position }
  | .endEl n =>
    { s with in_position := if n = "RelTime" then false else s.in_position }
  | .chars v => if s.in_position then { s with position := some v } else s
  | _ => s

/-- One group of the position text: a missing group (the iterator is
exhausted) defaults to `Ok(0)`, a present group is parsed as a `u32`
(`map_or(Ok(0), str::parse)`). -/
def posGroup : Option String → RResult Nat
  | none => .ok 0
  | some s =>
    match rustParseUnsigned u32max s with
    | some v => .ok v
    | none => .err .parseIntError

/-- Conversion step of `parse_position` (lines 305 to 310): split the
captured text on the colon, take up to three leading groups as hours,
minutes and seconds in that order (each missing group defaults to zero),
and combine into total seconds. -/
def position_to_secs (t : String) : RResult Nat :=
  let parts := rsplitChar ':' t
  match posGroup parts[0]? with
  | .err e => .err e
  | .panicked m => .panicked m
  | .ok hours =>
    match posGroup parts[1]? with
    | .err e => .err e
    | .panicked m => .panicked m
    | .ok minutes =>
      match posGroup parts[2]? with
      | .err e => .err e
      | .panicked m => .panicked m
      | .ok seconds => .ok ((hours * 3600 + minutes * 60 + seconds) % u32mod)

/-- Model of `parse_position` (lines 280 to 311): capture the text of
`RelTime`, then convert with `position_to_secs`; a document with no
captured text is the incomplete-response error. -/
def parse_position (evts : List XmlEvt) : RResult Nat :=
  match (foldEvts posStep ⟨false, none⟩ evts).position with
  | none => .err (.anyhowMsg "Invalid response from device")
  | some t => position_to_secs t

/-- Loop state of `parse_supported_protocols`: the captured `Sink` text
starts as the empty string, not as an absent value. -/
structure SinkSt where
  in_protocol : Bool
  protocols : String
deriving DecidableEq

/-- One event of the `parse_supported_protocols` loop. -/
def sinkStep (s : SinkSt) : XmlEvt → SinkSt
  | .start n _ =>
    { s with in_protocol := if n = "Sink" then true else s.in_protocol }
  | .endEl n =>
    { s with in_protocol := if n = "Sink" then false else s.in_protocol }
  | .chars v => if s.in_protocol then { s with protocols := v } else s
  | _ => s

/-- Model of `parse_supported_protocols` (lines 313 to 341): capture the
text of `Sink` (default empty) and split it on the comma; the function
always returns `Ok`. -/
def parse_supported_protocols (evts : List XmlEvt) : RResult (List String) :=
  .ok (rsplitChar ',' (foldEvts sinkStep ⟨false, ""⟩ evts).protocols)

/-! ## The optional and record extractors (src/parser.rs lines 343 to 526
and 698 to 746) -/

/-- Loop state of `parse_last_change`. -/
structure LastChangeSt where
  in_last_change : Bool
  result : Option String
deriving DecidableEq

/-- One event of the `parse_last_change` loop. -/
def lastChangeStep (s : LastChangeSt) : XmlEvt → LastChangeSt
  | .start n _ =>
    { s with in_last_change := if n = "LastChange" then true else s.in_last_change }
  | .endEl n =>
    { s with in_last_change := if n = "LastChange" then false else s.in_last_change }
  | .chars v => if s.in_last_change then { s with result := some v } else s
  | _ => s

/-- Model of `parse_last_change` (lines 343 to 368): the text of
`LastChange` returned verbatim as an optional string; always `Ok`. -/
def parse_last_change (evts : List XmlEvt) : RResult (Option String) :=
  .ok (foldEvts lastChangeStep ⟨false, none⟩ evts).result

/-- Scan an attribute list for `val` entries, each one overwriting the
current capture (the inner `for attr in attributes` loop). -/
def foldValAttrs (attrs : List (String × String)) (cur : Option String) : Option String :=
  attrs.foldl (fun acc a => if a.1 = "val" then some a.2 else acc) cur

/-- Shared loop of the four attribute extractors: on a start tag with the
target local name, capture the value of its `val` attribute; every other
event (including reader errors, skipped by `flatten`) leaves the state
unchanged. -/
def attrValStep (target : String) (cur : Option String) : XmlEvt → Option String
  | .start n attrs => if n = target then foldValAttrs attrs cur else cur
  | _ => cur

/-- Model of `parse_current_play_mode` (lines 370 to 388). -/
def parse_current_play_mode (evts : List XmlEvt) : RResult (Option String) :=
  .ok (foldEvts (attrValStep "CurrentPlayMode") none evts)

/-- Model of `parse_transport_state` (lines 390 to 408). -/
def parse_transport_state (evts : List XmlEvt) : RResult (Option String) :=
  .ok (foldEvts (attrValStep "TransportState") none evts)

/-- Model of `parse_av_transport_uri_metadata` (lines 410 to 428). -/
def parse_av_transport_uri_metadata (evts : List XmlEvt) : RResult (Option String) :=
  .ok (foldEvts (attrValStep "AVTransportURIMetaData") none evts)

/-- Model of `parse_current_track_metadata` (lines 430 to 448). -/
def parse_current_track_metadata (evts : List XmlEvt) : RResult (Option String) :=
  .ok (foldEvts (attrValStep "CurrentTrackMetaData") none evts)

/-- Flattened single-track descriptor. Modelled from the spec: the
`Metadata` record of `types.rs` is not under src/; section 3 declares the
fields `title`, `artist?`, `album?`, `albumArtUri?`, `url`, which are
exactly the fields `deserialize_metadata` fills (the remaining fields of
the Rust struct are covered by `..Default::default()`). -/
structure Metadata where
  title : String
  artist : Option String
  album : Option String
  album_art_uri : Option String
  url : String
deriving DecidableEq

/-- Loop state of `deserialize_metadata`. -/
structure MetaSt where
  in_title : Bool
  in_artist : Bool
  in_album : Bool
  in_album_art : Bool
  title : Option String
  artist : Option String
  album : Option String
  album_art : Option String
  url : String
deriving DecidableEq

/-- One event of the `deserialize_metadata` loop: the `id` attribute of an
`item` start tag seeds `url`, character data is routed by the four
inside-element flags (independent `if` statements, all matching flags
receive the value). -/
def metaStep (s : MetaSt) : XmlEvt → MetaSt
  | .start n attrs =>
    let s := if n = "item" then
        { s with url := attrs.foldl (fun acc a => if a.1 = "id" then a.2 else acc) s.url }
      else s
    let s := if n = "title" then { s with in_title := true } else s
    let s := if n = "artist" then { s with in_artist := true } else s
    let s := if n = "album" then { s with in_album := true } else s
    if n = "albumArtURI" then { s with in_album_art := true } else s
  | .endEl n =>
    let s := if n = "title" then { s with in_title := false } else s
    let s := if n = "artist" then { s with in_artist := false } else s
    let s := if n = "album" then { s with in_album := false } else s
    if n = "albumArtURI" then { s with in_album_art := false } else s
  | .chars v =>
    let s := if s.in_title then { s with title := some v } else s
    let s := if s.in_artist then { s with artist := some v } else s
    let s := if s.in_album then { s with album := some v } else s
    if s.in_album_art then { s with album_art := some v } else s
  | _ => s

/-- Model of `deserialize_metadata` (lines 450 to 526): an absent title
becomes the empty string, the other three text fields stay optional, and
the function always returns `Ok`. -/
def deserialize_metadata (evts : List XmlEvt) : RResult Metadata :=
  let s := foldEvts metaStep ⟨false, false, false, false, none, none, none, none, ""⟩ evts
  .ok { title := s.title.getD "", artist := s.artist, album := s.album,
        album_art_uri := s.album_art, url := s.url }

/-- Transport-state record: three raw strings, default empty. -/
structure TransportInfo where
  current_transport_state : String
  current_transport_status : String
  current_speed : String
deriving DecidableEq

/-- Loop state of `parse_transport_info`: three inside-element flags plus
the record under construction. -/
structure TiSt where
  in_transport_state : Bool
  in_transport_status : Bool
  in_transport_play_speed : Bool
  transport_info : TransportInfo
deriving DecidableEq

/-- One event of the `parse_transport_info` loop. -/
def tiStep (s : TiSt) : XmlEvt → TiSt
  | .start n _ =>
    match n with
    | "CurrentTransportState" => { s with in_transport_state := true }
    | "CurrentTransportStatus" => { s with in_transport_status := true }
    | "CurrentSpeed" => { s with in_transport_play_speed := true }
    | _ => s
  | .endEl n =>
    match n with
    | "CurrentTransportState" => { s with in_transport_state := false }
    | "CurrentTransportStatus" => { s with in_transport_status := false }
    | "CurrentSpeed" => { s with in_transport_play_speed := false }
    | _ => s
  | .chars v =>
    let s := if s.in_transport_state then
        { s with transport_info := { s.transport_info with current_transport_state := v } }
      else s
    let s := if s.in_transport_status then
        { s with transport_info := { s.transport_info with current_transport_status := v } }
      else s
    if s.in_transport_play_speed then
      { s with transport_info := { s.transport_info with current_speed := v } }
    else s
  | _ => s

/-- Model of `parse_transport_info` (lines 698 to 746): three independent
text fields assembled in one pass into a `TransportInfo`; always `Ok`. -/
def parse_transport_info (evts : List XmlEvt) : RResult TransportInfo :=
  .ok (foldEvts tiStep ⟨false, false, false, ⟨"", "", ""⟩⟩ evts).transport_info

/-! ## The browse / content-directory extractor (src/parser.rs lines 528
to 696) -/

/-- A browsable folder node. Modelled from the spec: the `Container`
record of `types.rs` is not under src/; section 3 declares `id`,
`parentId`, `title`, `objectClass?`, and the UPnP class value is kept as
the raw string of the document (the `into()` conversion of `types.rs`). -/
structure Container where
  id : String
  parent_id : String
  title : String
  object_class : Option String
deriving DecidableEq

/-- A playable media node. Modelled from the spec: the `Item` record of
`types.rs` is not under src/; section 3 declares `id`, `parentId`,
`title`, `artist?`, `album?`, `albumArtUri?`, `genre?`, `objectClass?`,
`protocolInfo` (empty if none matched), `size? : integer byte count`
(width not declared in src/, modelled as unsigned 64-bit), `duration?`
(raw text) and `url` (empty string if none found). -/
structure Item where
  id : String
  parent_id : String
  title : String
  artist : Option String
  album : Option String
  album_art_uri : Option String
  genre : Option String
  object_class : Option String
  protocol_info : String
  size : Option Nat
  duration : Option String
  url : String
deriving DecidableEq

/-- A default item: empty strings, absent options. -/
def Item.default : Item :=
  ⟨"", "", "", none, none, none, none, none, "", none, none, ""⟩

/-- A default container: empty strings, absent option. -/
def Container.default : Container := ⟨"", "", "", none⟩

/-- Loop state of `deserialize_content_directory`: the nine
inside-element flags and the two accumulated sequences (document order,
the last element of each list is the most recently opened record). -/
structure CdSt where
  in_container : Bool
  in_item : Bool
  in_title : Bool
  in_artist : Bool
  in_album : Bool
  in_album_art : Bool
  in_genre : Bool
  in_class : Bool
  in_res : Bool
  containers : List Container
  items : List Item
deriving DecidableEq

/-- Initial state of the content-directory scan. -/
def cdInit : CdSt :=
  ⟨false, false, false, false, false, false, false, false, false, [], []⟩

/-- Attribute scan of a `container` start tag: `id` and `parentID` fill
the new record. -/
def containerOfAttrs (attrs : List (String × String)) : Container :=
  attrs.foldl
    (fun c a =>
      if a.1 = "id" then { c with id := a.2 }
      else if a.1 = "parentID" then { c with parent_id := a.2 }
      else c)
    Container.default

/-- Attribute scan of an `item` start tag: `id` and `parentID` fill the
new record. -/
def itemOfAttrs (attrs : List (String × String)) : Item :=
  attrs.foldl
    (fun i a =>
      if a.1 = "id" then { i with id := a.2 }
      else if a.1 = "parentID" then { i with parent_id := a.2 }
      else i)
    Item.default

/-- Attribute scan of a `res` start tag (lines 617 to 635), processed in
attribute order. A `protocolInfo` value containing the substring `audio`
or `video` is written to the last item through `last_mut().unwrap()`,
which panics when no item has been opened yet; `size` is parsed first (the
assignment evaluates its right operand before the place expression), its
parse failure aborts with `ParseIntError`, and a successful parse is
written through the same panicking unwrap; `duration` likewise. -/
def resAttrs : List (String × String) → List Item → RResult (List Item)
  | [], items => .ok items
  | a :: rest, items =>
    if a.1 = "protocolInfo" then
      if containsSub a.2 "audio" || containsSub a.2 "video" then
        match items with
        | [] => .panicked "called Option::unwrap on a None value"
        | _ :: _ => resAttrs rest (updateLast (fun it => { it with protocol_info := a.2 }) items)
      else resAttrs rest items
    else if a.1 = "size" then
      match rustParseUnsigned u64max a.2 with
      | none => .err .parseIntError
      | some sz =>
        match items with
        | [] => .panicked "called Option::unwrap on a None value"
        | _ :: _ => resAttrs rest (updateLast (fun it => { it with size := some sz }) items)
    else if a.1 = "duration" then
      match items with
      | [] => .panicked "called Option::unwrap on a None value"
      | _ :: _ => resAttrs rest (updateLast (fun it => { it with duration := some a.2 }) items)
    else resAttrs rest items

/-- Start-tag step of the content-directory scan (lines 572 to 637). -/
def cdStart (s : CdSt) (n : String) (attrs : List (String × String)) : RResult CdSt :=
  match n with
  | "container" => .ok { s with in_container := true, containers := s.containers ++ [containerOfAttrs attrs] }
  | "item" => .ok { s with in_item := true, items := s.items ++ [itemOfAttrs attrs] }
  | "title" => .ok { s with in_title := true }
  | "artist" => .ok { s with in_artist := true }
  | "album" => .ok { s with in_album := true }
  | "albumArtURI" => .ok { s with in_album_art := true }
  | "genre" => .ok { s with in_genre := true }
  | "class" => .ok { s with in_class := true }
  | "res" =>
    match resAttrs attrs s.items with
    | .ok items => .ok { s with items := items, in_res := true }
    | .err e => .err e
    | .panicked m => .panicked m
  | _ => .ok s

/-- End-tag step of the content-directory scan (lines 638 to 649). -/
def cdEnd (s : CdSt) (n : String) : CdSt :=
  match n with
  | "container" => { s with in_container := false }
  | "item" => { s with in_item := false }
  | "title" => { s with in_title := false }
  | "artist" => { s with in_artist := false }
  | "album" => { s with in_album := false }
  | "albumArtURI" => { s with in_album_art := false }
  | "genre" => { s with in_genre := false }
  | "class" => { s with in_class := false }
  | "res" => { s with in_res := false }
  | _ => s

/-- Update of the last open item by one text value (lines 662 to 688):
the independent `if` statements route the value to every field whose flag
is set, and the value is adopted as `url` exactly when the scan is inside
a `res` element, the url is still empty, the value contains the
caller-supplied host/IP token, and the recorded `protocolInfo` contains
`audio` or `video`. -/
def itemChars (ip v : String) (s : CdSt) (it : Item) : Item :=
  let it := if s.in_title then { it with title := v } else it
  let it := if s.in_artist then { it with artist := some v } else it
  let it := if s.in_album then { it with album := some v } else it
  let it := if s.in_album_art then { it with album_art_uri := some v } else it
  let it := if s.in_genre then { it with genre := some v } else it
  let it := if s.in_class then { it with object_class := some v } else it
  if s.in_res && it.url = "" && containsSub v ip &&
      (containsSub it.protocol_info "audio" || containsSub it.protocol_info "video") then
    { it with url := v }
  else it

/-- Update of the last open container by one text value (lines 651 to
659): `title` text fills the title, `class` text fills the object
class. -/
def containerChars (v : String) (s : CdSt) (c : Container) : Container :=
  let c := if s.in_title then { c with title := v } else c
  if s.in_class then { c with object_class := some v } else c

/-- Character-data step of the content-directory scan (lines 650 to 691):
the value is routed to the most recently opened container (when inside a
container) and to the most recently opened item (when inside an item);
with no open record the value is dropped (the `if let Some` pattern). -/
def cdChars (ip v : String) (s : CdSt) : CdSt :=
  let s := if s.in_container then
      { s with containers := updateLast (containerChars v s) s.containers }
    else s
  if s.in_item then { s with items := updateLast (itemChars ip v s) s.items } else s

/-- One event of the content-directory scan. -/
def cdStep (ip : String) (s : CdSt) : XmlEvt → RResult CdSt
  | .start n attrs => cdStart s n attrs
  | .endEl n => .ok (cdEnd s n)
  | .chars v => .ok (cdChars ip v s)
  | _ => .ok s

/-- Model of `deserialize_content_directory` (lines 556 to 696): one pass
over the inner DIDL-Lite event stream, returning the accumulated container
and item sequences. -/
def deserialize_content_directory (evts : List XmlEvt) (ip : String) :
    RResult (List Container × List Item) :=
  match foldEvtsR (cdStep ip) cdInit evts with
  | .ok s => .ok (s.containers, s.items)
  | .err e => .err e
  | .panicked m => .panicked m

/-- Loop state of `parse_browse_response`. -/
structure BrowseSt where
  in_result : Bool
  result : List Container × List Item
deriving DecidableEq

/-- One event of the outer SOAP unwrap of `parse_browse_response`: the
character data seen inside `Result` is re-tokenised (`toEvents` models the
inner `EventReader::from_str`) and deserialised, the question-mark
operator propagating any error. -/
def browseStep (toEvents : String → List XmlEvt) (ip : String) (s : BrowseSt) :
    XmlEvt → RResult BrowseSt
  | .start n _ => .ok { s with in_result := if n = "Result" then true else s.in_result }
  | .endEl n => .ok { s with in_result := if n = "Result" then false else s.in_result }
  | .chars v =>
    if s.in_result then
      match deserialize_content_directory (toEvents v) ip with
      | .ok r => .ok { s with result := r }
      | .err e => .err e
      | .panicked m => .panicked m
    else .ok s
  | _ => .ok s

/-- Model of `parse_browse_response` (lines 528 to 554): unwrap the
escaped listing inside the `Result` element of the SOAP envelope and
deserialise it; `toEvents` stands for the inner XML tokenisation. -/
def parse_browse_response (toEvents : String → List XmlEvt) (evts : List XmlEvt)
    (ip : String) : RResult (List Container × List Item) :=
  match foldEvtsR (browseStep toEvents ip) ⟨false, ([], [])⟩ evts with
  | .ok s => .ok s.result
  | .err e => .err e
  | .panicked m => .panicked m

/-! ## The tree-based descriptor parser (src/parser.rs lines 10 to 218) -/

/-- A parsed XML element (the `elementtree::Element` view used by the
code): qualified tag, attributes, direct text content, child elements. -/
inductive Element where
  | mk (tag : String) (attrs : List (String × String)) (text : String)
      (children : List Element)

/-- Qualified tag of an element. -/
def Element.tag : Element → String
  | .mk t _ _ _ => t

/-- Text content of an element (`Element::text`). -/
def Element.text : Element → String
  | .mk _ _ t _ => t

/-- Child elements in document order. -/
def Element.children : Element → List Element
  | .mk _ _ _ c => c

/-- Model of `Element::find`: the first child whose qualified tag equals
the given name. -/
def Element.findE (e : Element) (name : String) : Option Element :=
  e.children.find? (fun c => c.tag = name)

/-- Namespace marker of device descriptors, written with the qualified
brace syntax of `elementtree`. -/
def devNs : String := "\x7burn:schemas-upnp-org:device-1-0\x7d"

/-- Qualified tag of the `device` element. -/
def devTag : String := devNs ++ "device"

/-- Qualified tag of the `serviceList` element. -/
def serviceListTag : String := devNs ++ "serviceList"

/-- Descriptor path of a device field: `device/<field>` with both
components namespace-qualified, as passed to `parse_attribute`. -/
def devPath (field : String) : String := devNs ++ "device/" ++ devNs ++ field

/-- Model of `parse_attribute` (lines 78 to 99): split the path on the
slash, look up the first component under the root and the second under
that child; a miss at either level is a successful empty string, and the
error branches for an exhausted path iterator are unreachable for the
two-component paths the code passes. -/
def parse_attribute (root : Element) (xml_name : String) : RResult String :=
  match rsplitChar '/' xml_name with
  | [] => .err (.anyhowMsg "xml_name ended unexpectedly")
  | p1 :: rest =>
    match root.findE p1 with
    | some element =>
      match rest with
      | [] => .err (.anyhowMsg "xml_name ended unexpectedly")
      | p2 :: _ =>
        match element.findE p2 with
        | some e2 => .ok e2.text
        | none => .ok ""
    | none => .ok ""

/-- An argument of an action. -/
structure Argument where
  name : String
  direction : String
  related_state_variable : String
deriving DecidableEq

/-- An invocable action of a service. -/
structure Action where
  name : String
  arguments : List Argument
deriving DecidableEq

/-- A service of a device: three absolute URLs and its action list. -/
structure Service where
  service_type : String
  service_id : String
  control_url : String
  event_sub_url : String
  scpd_url : String
  actions : List Action
deriving DecidableEq

/-- The device capability model assembled by `parse_location`. -/
structure Device where
  location : String
  device_type : String
  friendly_name : String
  manufacturer : String
  manufacturer_url : Option String
  model_description : Option String
  model_name : String
  model_number : Option String
  udn : String
  services : List Service
deriving DecidableEq

/-- Extraction of one `service` child of the service list (lines 112 to
147): each of the five fields is required, a missing one aborts with an
error naming the field; then the three URL fields are resolved against
the base URL by `join` (models `build_absolute_url`, lines 159 to 162),
in the order control, event subscription, SCPD. -/
def parse_service_elem (join : String → String → RResult String) (base : String)
    (x : Element) : RResult Service :=
  match x.findE (devNs ++ "serviceType") with
  | none => .err (.anyhowMsg "Service missing serviceType")
  | some est =>
    match x.findE (devNs ++ "serviceId") with
    | none => .err (.anyhowMsg "Service missing serviceId")
    | some esid =>
      match x.findE (devNs ++ "controlURL") with
      | none => .err (.anyhowMsg "Service missing controlURL")
      | some ec =>
        match x.findE (devNs ++ "eventSubURL") with
        | none => .err (.anyhowMsg "Service missing eventSubURL")
        | some ee =>
          match x.findE (devNs ++ "SCPDURL") with
          | none => .err (.anyhowMsg "Service missing SCPDURL")
          | some es =>
            match join base ec.text with
            | .err e => .err e
            | .panicked m => .panicked m
            | .ok cu =>
              match join base ee.text with
              | .err e => .err e
              | .panicked m => .panicked m
              | .ok eu =>
                match join base es.text with
                | .err e => .err e
                | .panicked m => .panicked m
                | .ok su =>
                  .ok ⟨est.text, esid.text, cu, eu, su, []⟩

/-- Sequential traversal with abort on the first error or panic (the
shape of both `for` loops of `parse_services`). -/
def mapRR (f : α → RResult β) : List α → RResult (List β)
  | [] => .ok []
  | x :: xs =>
    match f x with
    | .ok y =>
      match mapRR f xs with
      | .ok ys => .ok (y :: ys)
      | .err e => .err e
      | .panicked m => .panicked m
    | .err e => .err e
    | .panicked m => .panicked m

/-- Attach the fetched action list to one service (lines 149 to 153):
`fetch` models `parse_service_description` applied to the resolved SCPD
URL, and its failure aborts the whole operation. -/
def attachActions (fetch : String → RResult (List Action)) (s : Service) :
    RResult Service :=
  match fetch s.scpd_url with
  | .ok acts => .ok { s with actions := acts }
  | .err e => .err e
  | .panicked m => .panicked m

/-- Model of `parse_services` (lines 101 to 157): the `device` element is
required; an absent `serviceList` yields zero services; otherwise every
child of the service list is extracted and URL-resolved in document
order, then each service has its description fetched and parsed
sequentially; the first error anywhere aborts the whole call. -/
def parse_services (join : String → String → RResult String)
    (fetch : String → RResult (List Action)) (base : String) (root : Element) :
    RResult (List Service) :=
  match root.findE devTag with
  | none => .err (.anyhowMsg "Invalid response from device")
  | some device =>
    match device.findE serviceListTag with
    | none => .ok []
    | some serviceList =>
      match mapRR (parse_service_elem join base) serviceList.children with
      | .err e => .err e
      | .panicked m => .panicked m
      | .ok services =>
        match mapRR (attachActions fetch) services with
        | .ok svcs => .ok svcs
        | .err e => .err e
        | .panicked m => .panicked m

/-- Optional-field mapping of `parse_location` (lines 42 to 66): an empty
extracted string becomes an absent value. -/
def optionalize (s : String) : Option String := if s = "" then none else some s

/-- Base origin of a descriptor URL (line 72): the first three
slash-delimited segments rejoined. -/
def baseOf (location : String) : String :=
  joinWith "/" ((rsplitChar '/' location).take 3)

/-- Model of the document-processing part of `parse_location` (lines 20
to 75), after the descriptor has been fetched and tree-parsed: extract
the eight device fields with `parse_attribute` (the source reads
`deviceType` twice; the second pure read shadows the first with the same
value and is folded into one here), keep required fields verbatim, map
empty optional fields to absent, then parse the services against the base
origin of the descriptor URL. -/
def parse_location_pure (location : String) (root : Element)
    (join : String → String → RResult String)
    (fetch : String → RResult (List Action)) : RResult Device :=
  match parse_attribute root (devPath "deviceType") with
  | .err e => .err e
  | .panicked m => .panicked m
  | .ok device_type =>
    match parse_attribute root (devPath "friendlyName") with
    | .err e => .err e
    | .panicked m => .panicked m
    | .ok friendly_name =>
      match parse_attribute root (devPath "manufacturer") with
      | .err e => .err e
      | .panicked m => .panicked m
      | .ok manufacturer =>
        match parse_attribute root (devPath "manufacturerURL") with
        | .err e => .err e
        | .panicked m => .panicked m
        | .ok manufacturer_url =>
          match parse_attribute root (devPath "modelDescription") with
          | .err e => .err e
          | .panicked m => .panicked m
          | .ok model_description =>
            match parse_attribute root (devPath "modelName") with
            | .err e => .err e
            | .panicked m => .panicked m
            | .ok model_name =>
              match parse_attribute root (devPath "modelNumber") with
              | .err e => .err e
              | .panicked m => .panicked m
              | .ok model_number =>
                match parse_attribute root (devPath "UDN") with
                | .err e => .err e
                | .panicked m => .panicked m
                | .ok udn =>
                  match parse_services join fetch (baseOf location) root with
                  | .err e => .err e
                  | .panicked m => .panicked m
                  | .ok services =>
                    .ok { location := location, device_type := device_type,
                          friendly_name := friendly_name,
                          manufacturer := manufacturer,
                          manufacturer_url := optionalize manufacturer_url,
                          model_description := optionalize model_description,
                          model_name := model_name,
                          model_number := optionalize model_number,
                          udn := udn, services := services }


/-! ## Concrete fixtures -/

/-- A SOAP body whose `RelTime` element carries the given text. -/
def relTimeEvts (t : String) : List XmlEvt :=
  [.start "RelTime" [], .chars t, .endEl "RelTime"]

/-- A SOAP body whose `MediaDuration` element carries the given text. -/
def mdEvts (t : String) : List XmlEvt :=
  [.start "MediaDuration" [], .chars t, .endEl "MediaDuration"]

/-- A SOAP body whose `CurrentVolume` element carries the given text. -/
def cvEvts (t : String) : List XmlEvt :=
  [.start "CurrentVolume" [], .chars t, .endEl "CurrentVolume"]

/-- A SOAP body whose `Sink` element carries the given text. -/
def sinkEvts (t : String) : List XmlEvt :=
  [.start "Sink" [], .chars t, .endEl "Sink"]

/-- A URL-join oracle that always succeeds, used to instantiate the
theorems at concrete inputs. -/
def okJoin : String → String → RResult String := fun b r => .ok (b ++ "/" ++ r)

/-- An SCPD fetch oracle returning an empty action list. -/
def okFetch : String → RResult (List Action) := fun _ => .ok []

/-- An SCPD fetch oracle that fails with a transport error. -/
def failFetch : String → RResult (List Action) :=
  fun _ => .err (.anyhowMsg "Failed to retrieve xml response from device")

/-- A leaf descriptor element with the given qualified tag and text. -/
def leaf (t txt : String) : Element := .mk t [] txt []

/-- A `device` element carrying `deviceType`, `manufacturer`, `modelName`
and `UDN` with the given texts and lacking `friendlyName`,
`manufacturerURL`, `modelDescription`, `modelNumber` and `serviceList`. -/
def descDevNoFn (dt mf mn u : String) : Element :=
  .mk devTag [] ""
    [leaf (devNs ++ "deviceType") dt,
     leaf (devNs ++ "manufacturer") mf,
     leaf (devNs ++ "modelName") mn,
     leaf (devNs ++ "UDN") u]

/-- A device descriptor root wrapping `descDevNoFn`. -/
def descRootNoFn (dt mf mn u : String) : Element :=
  .mk "root" [] "" [descDevNoFn dt mf mn u]

/-- The concrete descriptor used to exhibit the behaviour on a missing
required field. -/
def noFnRoot : Element := descRootNoFn "urn:x:device:Media:1" "ACME" "X1" "uuid:1234"

/-- A root with no `device` child at all. -/
def bareRoot : Element := .mk "root" [] "" []

/-- The device element of the NETGEAR regression fixture (no
`serviceList`), reduced to the fields the parser reads. -/
def netgearDevice : Element :=
  .mk devTag [] ""
    [leaf (devNs ++ "deviceType") "urn:schemas-upnp-org:device:WLANAccessPointDevice:1",
     leaf (devNs ++ "friendlyName") "NETGEAR47B64C",
     leaf (devNs ++ "manufacturer") "NETGEAR",
     leaf (devNs ++ "modelName") "WAX214",
     leaf (devNs ++ "UDN") "uuid:919ba4ec-ec93-490f-b0e3-80CC9C47B64C"]

/-- The NETGEAR regression descriptor root. -/
def netgearRoot : Element := .mk "root" [] "" [netgearDevice]

/-- A complete `service` element. -/
def svcEl : Element :=
  .mk (devNs ++ "service") [] ""
    [leaf (devNs ++ "serviceType") "urn:schemas-upnp-org:service:AVTransport:1",
     leaf (devNs ++ "serviceId") "urn:upnp-org:serviceId:AVTransport",
     leaf (devNs ++ "controlURL") "/ctrl",
     leaf (devNs ++ "eventSubURL") "/evt",
     leaf (devNs ++ "SCPDURL") "/scpd.xml"]

/-- A `service` element lacking every field. -/
def emptySvcEl : Element := .mk (devNs ++ "service") [] "" []

/-- A service list holding exactly `svcEl`. -/
def svcListEl : Element := .mk serviceListTag [] "" [svcEl]

/-- A device element holding `svcListEl`. -/
def rootWithSvcDev : Element := .mk devTag [] "" [svcListEl]

/-- A descriptor whose service list holds exactly `svcEl`. -/
def rootWithSvc : Element := .mk "root" [] "" [rootWithSvcDev]

/-- The service extracted from `svcEl` with base `http://h` under
`okJoin`. -/
def svcParsed : Service :=
  { service_type := "urn:schemas-upnp-org:service:AVTransport:1"
    service_id := "urn:upnp-org:serviceId:AVTransport"
    control_url := "http://h//ctrl"
    event_sub_url := "http://h//evt"
    scpd_url := "http://h//scpd.xml"
    actions := [] }

/-- The browse fixture of the claim: one item followed by an image
resource and an audio resource, the audio text containing the host
token. -/
def c4Evts : List XmlEvt :=
  [.start "item" [("id", "1"), ("parentID", "0")],
   .start "res" [("protocolInfo", "http-get:*:image/jpeg:*")],
   .chars "http://192.168.1.5/thumb.jpg",
   .endEl "res",
   .start "res" [("protocolInfo", "http-get:*:audio/mpeg:*")],
   .chars "http://192.168.1.5/track.mp3",
   .endEl "res",
   .endEl "item"]

/-- The item produced by the browse fixture: protocol info from the audio
resource, url from the audio text. -/
def c4Item : Item :=
  { Item.default with
    id := "1"
    parent_id := "0"
    protocol_info := "http-get:*:audio/mpeg:*"
    url := "http://192.168.1.5/track.mp3" }

/-- The single open item of the mid-scan state below. -/
def wItem : Item := { Item.default with id := "9", protocol_info := "http-get:*:audio/mpeg:*" }

/-- A mid-scan state for instantiating the adoption equation: inside an
item and a resource whose protocol info is an audio class. -/
def wSt : CdSt :=
  { cdInit with
    in_item := true
    in_res := true
    items := [wItem] }

/-! ## Helper lemmas -/

/-- A fold whose step ignores reader errors is unchanged by an error event
anywhere in the stream. -/
theorem foldEvts_skip (step : σ → XmlEvt → σ) (h : ∀ s, step s XmlEvt.error = s) :
    ∀ (s : σ) (xs ys : List XmlEvt),
      foldEvts step s (xs ++ XmlEvt.error :: ys) = foldEvts step s (xs ++ ys) := by
  intro s xs
  induction xs generalizing s with
  | nil => intro ys; simp [foldEvts, h]
  | cons x xs ih => intro ys; simp [foldEvts, ih]

/-- Updating the last element maps through `getLast?`. -/
theorem updateLast_getLast (f : α → α) :
    ∀ l : List α, (updateLast f l).getLast? = l.getLast?.map f := by
  intro l
  induction l with
  | nil => rfl
  | cons a l ih =>
    cases l with
    | nil => rfl
    | cons b l =>
      have hsh : ∃ c cs, updateLast f (b :: l) = c :: cs := by
        cases l with
        | nil => exact ⟨f b, [], rfl⟩
        | cons d ds => exact ⟨b, updateLast f (d :: ds), rfl⟩
      obtain ⟨c, cs, hcs⟩ := hsh
      calc (updateLast f (a :: b :: l)).getLast?
          = (a :: c :: cs).getLast? := by
            rw [show updateLast f (a :: b :: l) = a :: updateLast f (b :: l) from rfl, hcs]
        _ = (c :: cs).getLast? := List.getLast?_cons_cons
        _ = (updateLast f (b :: l)).getLast? := by rw [hcs]
        _ = (b :: l).getLast?.map f := ih
        _ = (a :: b :: l).getLast?.map f := by rw [List.getLast?_cons_cons]

/-- The split of any string is non-empty (Rust `split` always yields at
least one item). -/
theorem rsplitChar_ne_nil (sep : Char) (s : String) :
    ∃ x l, rsplitChar sep s = x :: l := by
  unfold rsplitChar
  generalize s.data = cs
  generalize ([] : List Char) = acc
  induction cs generalizing acc with
  | nil => exact ⟨_, _, rfl⟩
  | cons c rest ih =>
    by_cases hc : c = sep
    · exact ⟨String.mk acc.reverse, rsplitCharAux sep rest [],
        by simp [rsplitCharAux, hc]⟩
    · obtain ⟨x, l, hx⟩ := ih (c :: acc)
      exact ⟨x, l, by simp [rsplitCharAux, hc, hx]⟩

/-- The url of the updated item: the text-routing updates leave `url` and
`protocolInfo` untouched, and the adoption condition is read off the
original item. -/
theorem itemChars_url (ip v : String) (s : CdSt) (it : Item) :
    (itemChars ip v s it).url =
      if s.in_res && it.url = "" && containsSub v ip &&
          (containsSub it.protocol_info "audio" || containsSub it.protocol_info "video") then
        v
      else it.url := by
  unfold itemChars
  cases h1 : s.in_title <;> cases h2 : s.in_artist <;> cases h3 : s.in_album <;>
    cases h4 : s.in_album_art <;> cases h5 : s.in_genre <;> cases h6 : s.in_class <;>
    simp <;> split <;> rfl

/-- A volume scan that never sees a `CurrentVolume` start tag keeps its
flag down and captures nothing. -/
theorem volume_loop_inactive :
    ∀ (evts : List XmlEvt) (cur : Option Nat),
      (∀ a, XmlEvt.start "CurrentVolume" a ∉ evts) →
      foldEvtsR volStep ⟨false, cur⟩ evts = .ok ⟨false, cur⟩ := by
  intro evts
  induction evts with
  | nil => intro cur _; rfl
  | cons e rest ih =>
    intro cur h
    have hrest : ∀ a, XmlEvt.start "CurrentVolume" a ∉ rest := by
      intro a ha; exact h a (List.mem_cons_of_mem _ ha)
    cases e with
    | start n attrs =>
      have hn : ¬ n = "CurrentVolume" := by
        intro hn; exact h attrs (by simp [hn])
      simp [foldEvtsR, volStep, hn, ih cur hrest]
    | endEl n => simp [foldEvtsR, volStep, ih cur hrest]
    | chars v => simp [foldEvtsR, volStep, ih cur hrest]
    | error => simp [foldEvtsR, volStep, ih cur hrest]
    | other => simp [foldEvtsR, volStep, ih cur hrest]


/-! ## Claim theorems -/

/-- C1, counterexample: on the claimed inputs the code disagrees with the
claim: the RelTime text `0:05` parses to 300 seconds (0 hours, 5 minutes),
not 5 seconds, and the text `05` is accepted as 18000 seconds (5 hours)
instead of being rejected with an error. -/
theorem position_claim_counterexample :
    parse_position (relTimeEvts "0:05") = .ok 300 ∧
    parse_position (relTimeEvts "05") = .ok 18000 := ⟨rfl, rfl⟩

/-- C1, amended: `parse_position` splits the RelTime text on the colon and
reads the groups left to right as hours, then minutes, then seconds, with
the missing trailing groups defaulting to 0 before converting to total
seconds; in particular `0:05` yields 300 seconds and a lone seconds group
such as `05` is accepted as a number of hours (18000 seconds), not
rejected. -/
theorem position_groups :
    (∀ t a va, rsplitChar ':' t = [a] → rustParseUnsigned u32max a = some va →
      position_to_secs t = .ok (va * 3600 % u32mod)) ∧
    (∀ t a b va vb, rsplitChar ':' t = [a, b] →
      rustParseUnsigned u32max a = some va → rustParseUnsigned u32max b = some vb →
      position_to_secs t = .ok ((va * 3600 + vb * 60) % u32mod)) ∧
    (∀ t a b c rest va vb vc, rsplitChar ':' t = a :: b :: c :: rest →
      rustParseUnsigned u32max a = some va → rustParseUnsigned u32max b = some vb →
      rustParseUnsigned u32max c = some vc →
      position_to_secs t = .ok ((va * 3600 + vb * 60 + vc) % u32mod)) ∧
    parse_position (relTimeEvts "0:05") = .ok 300 ∧
    parse_position (relTimeEvts "05") = .ok 18000 := by
  refine ⟨?_, ?_, ?_, rfl, rfl⟩
  · intro t a va hs ha
    unfold position_to_secs
    rw [hs]
    simp [posGroup, ha]
  · intro t a b va vb hs ha hb
    unfold position_to_secs
    rw [hs]
    simp [posGroup, ha, hb]
  · intro t a b c rest va vb vc hs ha hb hc
    unfold position_to_secs
    rw [hs]
    simp [posGroup, ha, hb, hc]

/-- C1, witness: the group equations applied at the concrete texts `7`,
`0:05` and `1:02:03`. -/
theorem position_groups_witness :
    position_to_secs "7" = .ok 25200 ∧
    position_to_secs "0:05" = .ok 300 ∧
    position_to_secs "1:02:03" = .ok 3723 :=
  ⟨position_groups.1 "7" "7" 7 (by decide) (by decide),
   position_groups.2.1 "0:05" "0" "05" 0 5 (by decide) (by decide) (by decide),
   position_groups.2.2.1 "1:02:03" "1" "02" "03" [] 1 2 3 (by decide) (by decide)
     (by decide) (by decide)⟩

/-- C3, counterexample: the MediaDuration text `1:2:3` does not fail with
an `InvalidNumber` error; its stripped form `123` is shorter than six
bytes and the fixed-offset slice panics. -/
theorem duration_claim_counterexample :
    parse_duration (mdEvts "1:2:3") = .panicked "byte index out of range" := rfl

/-- C3, amended: `parse_duration` strips the colon separators, parses the
fixed 2-digit groups at offsets 0..2, 2..4, 4..6 as hours, minutes and
seconds and converts to total seconds (`01:02:03` yields 3723); a
non-numeric group is a fatal number-parse error; but `1:2:3` is rejected
by a byte-index panic of the fixed-offset slicing, not by an
`InvalidNumber` error. -/
theorem duration_fixed_groups :
    (∀ d hs ms ss vh vm vs,
      sliceRange d 0 2 = some hs → rustParseUnsigned u32max hs = some vh →
      sliceRange d 2 4 = some ms → rustParseUnsigned u32max ms = some vm →
      sliceRange d 4 6 = some ss → rustParseUnsigned u32max ss = some vs →
      duration_to_secs d = .ok ((vh * 3600 + vm * 60 + vs) % u32mod)) ∧
    (∀ d, d.length < 2 → duration_to_secs d = .panicked "byte index out of range") ∧
    (∀ d hs vh, d.length < 4 → sliceRange d 0 2 = some hs →
      rustParseUnsigned u32max hs = some vh →
      duration_to_secs d = .panicked "byte index out of range") ∧
    parse_duration (mdEvts "01:02:03") = .ok 3723 ∧
    parse_duration (mdEvts "1:2:3") = .panicked "byte index out of range" ∧
    parse_duration (mdEvts "aa:bb:cc") = .err .parseIntError := by
  refine ⟨?_, ?_, ?_, rfl, rfl, rfl⟩
  · intro d hs ms ss vh vm vs h1 h2 h3 h4 h5 h6
    unfold duration_to_secs
    simp only [h1, h2, h3, h4, h5, h6]
  · intro d hd
    unfold duration_to_secs
    rw [show sliceRange d 0 2 = none from by simp [sliceRange]; omega]
  · intro d hs vh hd h1 h2
    unfold duration_to_secs
    simp only [h1, h2, show sliceRange d 2 4 = none from by simp [sliceRange]; omega]

/-- C3, witness: the conversion equations applied at the concrete stripped
texts `010203`, `1` and `123`. -/
theorem duration_fixed_groups_witness :
    duration_to_secs "010203" = .ok 3723 ∧
    duration_to_secs "1" = .panicked "byte index out of range" ∧
    duration_to_secs "123" = .panicked "byte index out of range" :=
  ⟨duration_fixed_groups.1 "010203" "01" "02" "03" 1 2 3 (by decide) (by decide)
     (by decide) (by decide) (by decide) (by decide),
   duration_fixed_groups.2.1 "1" (by decide),
   duration_fixed_groups.2.2.1 "123" "12" 12 (by decide) (by decide) (by decide)⟩

/-- C7: `parse_volume` parses the CurrentVolume text as an unsigned byte:
`37` yields 37, `300` exceeds the byte range and fails, any text that does
not parse as a `u8` is a fatal `ParseIntError`, and a document with no
`CurrentVolume` start tag at all fails with the incomplete-response
error. -/
theorem volume_u8 :
    parse_volume (cvEvts "37") = .ok 37 ∧
    parse_volume (cvEvts "300") = .err .parseIntError ∧
    (∀ s, rustParseUnsigned u8max s = none →
      parse_volume (cvEvts s) = .err .parseIntError) ∧
    (∀ evts, (∀ a, XmlEvt.start "CurrentVolume" a ∉ evts) →
      parse_volume evts = .err (.anyhowMsg "Invalid response from device")) := by
  refine ⟨rfl, rfl, ?_, ?_⟩
  · intro s hs
    simp [parse_volume, cvEvts, foldEvtsR, volStep, hs]
  · intro evts h
    unfold parse_volume
    rw [volume_loop_inactive evts none h]

/-- C7, witness: the failure cases applied at the non-numeric text `abc`
and at a document that never opens `CurrentVolume`. -/
theorem volume_u8_witness :
    parse_volume (cvEvts "abc") = .err .parseIntError ∧
    parse_volume [XmlEvt.chars "50"] = .err (.anyhowMsg "Invalid response from device") :=
  ⟨volume_u8.2.2.1 "abc" (by decide),
   volume_u8.2.2.2 [XmlEvt.chars "50"] (by intro a ha; simp at ha)⟩

/-- C8: `parse_supported_protocols` splits the Sink text on the comma; a
document whose Sink element carries no text (the captured text stays
empty) yields the one-element sequence holding the empty string, and the
result is never a zero-length sequence. -/
theorem sink_split :
    (∀ s, parse_supported_protocols (sinkEvts s) = .ok (rsplitChar ',' s)) ∧
    parse_supported_protocols [XmlEvt.start "Sink" [], XmlEvt.endEl "Sink"] = .ok [""] ∧
    (∀ evts, ∃ x l, parse_supported_protocols evts = .ok (x :: l)) := by
  refine ⟨fun s => rfl, rfl, ?_⟩
  intro evts
  obtain ⟨x, l, h⟩ := rsplitChar_ne_nil ',' (foldEvts sinkStep ⟨false, ""⟩ evts).protocols
  exact ⟨x, l, by unfold parse_supported_protocols; rw [h]⟩

/-- C8, witness: the split equation applied at the concrete Sink text
`http-get:*:audio/mpeg:*,http-get:*:video/mp4:*`. -/
theorem sink_split_witness :
    parse_supported_protocols (sinkEvts "http-get:*:audio/mpeg:*,http-get:*:video/mp4:*") =
      .ok ["http-get:*:audio/mpeg:*", "http-get:*:video/mp4:*"] :=
  sink_split.1 "http-get:*:audio/mpeg:*,http-get:*:video/mp4:*"

/-- C2, counterexample: a descriptor whose device element lacks the
required `friendlyName` (and the optional fields) parses successfully
with `friendly_name` the empty string instead of failing with an error
naming the missing field. -/
theorem location_claim_counterexample :
    parse_location_pure "http://10.0.0.2:49152/desc.xml" noFnRoot okJoin okFetch =
      .ok { location := "http://10.0.0.2:49152/desc.xml"
            device_type := "urn:x:device:Media:1"
            friendly_name := ""
            manufacturer := "ACME"
            manufacturer_url := none
            model_description := none
            model_name := "X1"
            model_number := none
            udn := "uuid:1234"
            services := [] } := rfl

/-- C2, amended: `parse_location` maps an empty extracted string to an
absent value for the optional fields (`manufacturerURL`,
`modelDescription`, `modelNumber`), but for the required fields the
absence of the element is not an error: `parse_attribute` returns a
successful empty string whenever either path component is missing, so the
device parses successfully with the required field empty. -/
theorem location_absent_fields :
    (∀ root p1 p2 rest path, rsplitChar '/' path = p1 :: p2 :: rest →
      Element.findE root p1 = none → parse_attribute root path = .ok "") ∧
    (∀ root p1 p2 rest path e, rsplitChar '/' path = p1 :: p2 :: rest →
      Element.findE root p1 = some e → Element.findE e p2 = none →
      parse_attribute root path = .ok "") ∧
    (∀ loc join fetch dt mf mn u,
      parse_location_pure loc (descRootNoFn dt mf mn u) join fetch =
        .ok { location := loc
              device_type := dt
              friendly_name := ""
              manufacturer := mf
              manufacturer_url := none
              model_description := none
              model_name := mn
              model_number := none
              udn := u
              services := [] }) := by
  refine ⟨?_, ?_, fun loc join fetch dt mf mn u => rfl⟩
  · intro root p1 p2 rest path h1 h2
    unfold parse_attribute
    simp only [h1, h2]
  · intro root p1 p2 rest path e h1 h2 h3
    unfold parse_attribute
    simp only [h1, h2, h3]

/-- C2, witness: the absent-field equations applied at a root with no
device element, at the concrete descriptor lacking `friendlyName`, and at
the shaped descriptor with concrete field texts. -/
theorem location_absent_fields_witness :
    parse_attribute bareRoot (devPath "friendlyName") = .ok "" ∧
    parse_attribute noFnRoot (devPath "friendlyName") = .ok "" ∧
    parse_location_pure "http://10.0.0.3/d.xml" (descRootNoFn "dt" "mf" "mn" "u") okJoin okFetch =
      .ok { location := "http://10.0.0.3/d.xml"
            device_type := "dt"
            friendly_name := ""
            manufacturer := "mf"
            manufacturer_url := none
            model_description := none
            model_name := "mn"
            model_number := none
            udn := "u"
            services := [] } :=
  ⟨location_absent_fields.1 bareRoot devTag (devNs ++ "friendlyName") []
      (devPath "friendlyName") (by decide) rfl,
   location_absent_fields.2.1 noFnRoot devTag (devNs ++ "friendlyName") []
      (devPath "friendlyName") (descDevNoFn "urn:x:device:Media:1" "ACME" "X1" "uuid:1234")
      (by decide) rfl rfl,
   location_absent_fields.2.2 "http://10.0.0.3/d.xml" okJoin okFetch "dt" "mf" "mn" "u"⟩

/-- C5: in `parse_services` each of `serviceType`, `serviceId`,
`controlURL`, `eventSubURL` and `SCPDURL` is required, and a missing one
is a fatal error naming the service field; when all are present the three
URL fields are resolved against the base origin through the join
function; and a failure fetching or parsing one service description
aborts the whole call with that error, so no partial service list is ever
returned. -/
theorem services_required_fields :
    (∀ join base x, Element.findE x (devNs ++ "serviceType") = none →
      parse_service_elem join base x = .err (.anyhowMsg "Service missing serviceType")) ∧
    (∀ join base x e1, Element.findE x (devNs ++ "serviceType") = some e1 →
      Element.findE x (devNs ++ "serviceId") = none →
      parse_service_elem join base x = .err (.anyhowMsg "Service missing serviceId")) ∧
    (∀ join base x e1 e2, Element.findE x (devNs ++ "serviceType") = some e1 →
      Element.findE x (devNs ++ "serviceId") = some e2 →
      Element.findE x (devNs ++ "controlURL") = none →
      parse_service_elem join base x = .err (.anyhowMsg "Service missing controlURL")) ∧
    (∀ join base x e1 e2 e3, Element.findE x (devNs ++ "serviceType") = some e1 →
      Element.findE x (devNs ++ "serviceId") = some e2 →
      Element.findE x (devNs ++ "controlURL") = some e3 →
      Element.findE x (devNs ++ "eventSubURL") = none →
      parse_service_elem join base x = .err (.anyhowMsg "Service missing eventSubURL")) ∧
    (∀ join base x e1 e2 e3 e4, Element.findE x (devNs ++ "serviceType") = some e1 →
      Element.findE x (devNs ++ "serviceId") = some e2 →
      Element.findE x (devNs ++ "controlURL") = some e3 →
      Element.findE x (devNs ++ "eventSubURL") = some e4 →
      Element.findE x (devNs ++ "SCPDURL") = none →
      parse_service_elem join base x = .err (.anyhowMsg "Service missing SCPDURL")) ∧
    (∀ join base x e1 e2 e3 e4 e5 cu eu su,
      Element.findE x (devNs ++ "serviceType") = some e1 →
      Element.findE x (devNs ++ "serviceId") = some e2 →
      Element.findE x (devNs ++ "controlURL") = some e3 →
      Element.findE x (devNs ++ "eventSubURL") = some e4 →
      Element.findE x (devNs ++ "SCPDURL") = some e5 →
      join base (Element.text e3) = .ok cu →
      join base (Element.text e4) = .ok eu →
      join base (Element.text e5) = .ok su →
      parse_service_elem join base x =
        .ok { service_type := Element.text e1
              service_id := Element.text e2
              control_url := cu
              event_sub_url := eu
              scpd_url := su
              actions := [] }) ∧
    (∀ join fetch base root device sl x svc er,
      Element.findE root devTag = some device →
      Element.findE device serviceListTag = some sl →
      Element.children sl = [x] →
      parse_service_elem join base x = .ok svc →
      fetch (Service.scpd_url svc) = .err er →
      parse_services join fetch base root = .err er) := by
  refine ⟨?_, ?_, ?_, ?_, ?_, ?_, ?_⟩
  · intro join base x h1
    unfold parse_service_elem
    simp only [h1]
  · intro join base x e1 h1 h2
    unfold parse_service_elem
    simp only [h1, h2]
  · intro join base x e1 e2 h1 h2 h3
    unfold parse_service_elem
    simp only [h1, h2, h3]
  · intro join base x e1 e2 e3 h1 h2 h3 h4
    unfold parse_service_elem
    simp only [h1, h2, h3, h4]
  · intro join base x e1 e2 e3 e4 h1 h2 h3 h4 h5
    unfold parse_service_elem
    simp only [h1, h2, h3, h4, h5]
  · intro join base x e1 e2 e3 e4 e5 cu eu su h1 h2 h3 h4 h5 hj1 hj2 hj3
    unfold parse_service_elem
    simp only [h1, h2, h3, h4, h5, hj1, hj2, hj3]
  · intro join fetch base root device sl x svc er h1 h2 h3 h4 h5
    unfold parse_services
    simp only [h1, h2, h3, mapRR, h4, attachActions, h5]

/-- C5, witness: the required-field error at a service element lacking
every field, the resolved service at the complete element, and the abort
when the one service description fetch fails. -/
theorem services_required_fields_witness :
    parse_service_elem okJoin "http://h" emptySvcEl =
      .err (.anyhowMsg "Service missing serviceType") ∧
    parse_service_elem okJoin "http://h" svcEl = .ok svcParsed ∧
    parse_services okJoin failFetch "http://h" rootWithSvc =
      .err (.anyhowMsg "Failed to retrieve xml response from device") :=
  ⟨services_required_fields.1 okJoin "http://h" emptySvcEl rfl,
   services_required_fields.2.2.2.2.2.1 okJoin "http://h" svcEl
     (leaf (devNs ++ "serviceType") "urn:schemas-upnp-org:service:AVTransport:1")
     (leaf (devNs ++ "serviceId") "urn:upnp-org:serviceId:AVTransport")
     (leaf (devNs ++ "controlURL") "/ctrl")
     (leaf (devNs ++ "eventSubURL") "/evt")
     (leaf (devNs ++ "SCPDURL") "/scpd.xml")
     "http://h//ctrl" "http://h//evt" "http://h//scpd.xml"
     rfl rfl rfl rfl rfl rfl rfl rfl,
   services_required_fields.2.2.2.2.2.2 okJoin failFetch "http://h" rootWithSvc
     rootWithSvcDev svcListEl svcEl svcParsed
     (.anyhowMsg "Failed to retrieve xml response from device")
     rfl rfl rfl rfl rfl⟩

/-- C6: a well-formed descriptor whose device element lacks a
`serviceList` parses successfully with zero services. -/
theorem services_empty_without_list :
    ∀ join fetch base root device, Element.findE root devTag = some device →
      Element.findE device serviceListTag = none →
      parse_services join fetch base root = .ok [] := by
  intro join fetch base root device h1 h2
  unfold parse_services
  simp only [h1, h2]

/-- C6, witness: the NETGEAR access-point descriptor with no service list
yields zero services. -/
theorem services_empty_without_list_witness :
    parse_services okJoin okFetch "http://xxxxxx:1337/" netgearRoot = .ok [] :=
  services_empty_without_list okJoin okFetch "http://xxxxxx:1337/" netgearRoot
    netgearDevice rfl rfl

/-- C4: inside a `res` element of an item, a text value becomes the item
url exactly when the url is still empty, the text contains the
caller-supplied host/IP token, and the recorded protocol info contains
`audio` or `video`; on the fixture with an image resource before an audio
resource, the audio text becomes the url and the image resource is
ignored. -/
theorem res_url_adoption :
    (∀ ip s v it, CdSt.in_item s = true → CdSt.in_res s = true →
      (CdSt.items s).getLast? = some it →
      ((CdSt.items (cdChars ip v s)).getLast?).map Item.url =
        some (if it.url = "" && containsSub v ip &&
            (containsSub it.protocol_info "audio" || containsSub it.protocol_info "video")
          then v else it.url)) ∧
    deserialize_content_directory c4Evts "192.168.1.5" = .ok ([], [c4Item]) := by
  refine ⟨?_, rfl⟩
  intro ip s v it hitem hres hlast
  cases hcont : s.in_container <;>
    simp [cdChars, hcont, hitem, hres, hlast, updateLast_getLast, itemChars_url]

/-- C4, witness: the adoption equation applied at a state inside an item
and a resource with audio protocol info, with a text containing the host
token. -/
theorem res_url_adoption_witness :
    ((CdSt.items (cdChars "10.0.0.9" "http://10.0.0.9/a.mp3" wSt)).getLast?).map Item.url =
      some "http://10.0.0.9/a.mp3" :=
  res_url_adoption.1 "10.0.0.9" wSt "http://10.0.0.9/a.mp3" wItem rfl rfl rfl

/-- C9: a `res` element carrying an audio protocol info before any item
has been opened makes `deserialize_content_directory` panic on the unwrap
of the last item instead of returning a result or an error, and the panic
reaches `parse_browse_response` as well. -/
theorem res_before_item_panics :
    deserialize_content_directory
        [.start "res" [("protocolInfo", "http-get:*:audio/mpeg:*")]] "192.168.1.7" =
      .panicked "called Option::unwrap on a None value" ∧
    parse_browse_response
        (fun _ => [.start "res" [("protocolInfo", "http-get:*:audio/mpeg:*")]])
        [.start "Result" [], .chars "escaped listing", .endEl "Result"] "192.168.1.7" =
      .panicked "called Option::unwrap on a None value" := ⟨rfl, rfl⟩

/-- C10: the option- and record-returning extractors always return a
successful result on every event stream, and a reader error event is
silently skipped: it never surfaces and leaves the captured state
unchanged. -/
theorem option_extractors_total :
    (∀ evts, ∃ v, parse_last_change evts = .ok v) ∧
    (∀ evts, ∃ v, parse_current_play_mode evts = .ok v) ∧
    (∀ evts, ∃ v, parse_transport_state evts = .ok v) ∧
    (∀ evts, ∃ v, parse_av_transport_uri_metadata evts = .ok v) ∧
    (∀ evts, ∃ v, parse_current_track_metadata evts = .ok v) ∧
    (∀ evts, ∃ v, parse_transport_info evts = .ok v) ∧
    (∀ evts, ∃ v, parse_supported_protocols evts = .ok v) ∧
    (∀ evts, ∃ v, deserialize_metadata evts = .ok v) ∧
    (∀ xs ys, parse_last_change (xs ++ XmlEvt.error :: ys) =
      parse_last_change (xs ++ ys)) ∧
    (∀ xs ys, parse_current_play_mode (xs ++ XmlEvt.error :: ys) =
      parse_current_play_mode (xs ++ ys)) ∧
    (∀ xs ys, parse_transport_state (xs ++ XmlEvt.error :: ys) =
      parse_transport_state (xs ++ ys)) ∧
    (∀ xs ys, parse_av_transport_uri_metadata (xs ++ XmlEvt.error :: ys) =
      parse_av_transport_uri_metadata (xs ++ ys)) ∧
    (∀ xs ys, parse_current_track_metadata (xs ++ XmlEvt.error :: ys) =
      parse_current_track_metadata (xs ++ ys)) ∧
    (∀ xs ys, parse_transport_info (xs ++ XmlEvt.error :: ys) =
      parse_transport_info (xs ++ ys)) ∧
    (∀ xs ys, parse_supported_protocols (xs ++ XmlEvt.error :: ys) =
      parse_supported_protocols (xs ++ ys)) ∧
    (∀ xs ys, deserialize_metadata (xs ++ XmlEvt.error :: ys) =
      deserialize_metadata (xs ++ ys)) := by
  refine ⟨fun evts => ⟨_, rfl⟩, fun evts => ⟨_, rfl⟩, fun evts => ⟨_, rfl⟩,
    fun evts => ⟨_, rfl⟩, fun evts => ⟨_, rfl⟩, fun evts => ⟨_, rfl⟩,
    fun evts => ⟨_, rfl⟩, fun evts => ⟨_, rfl⟩, ?_, ?_, ?_, ?_, ?_, ?_, ?_, ?_⟩
  · intro xs ys
    unfold parse_last_change
    rw [foldEvts_skip lastChangeStep (fun s => rfl)]
  · intro xs ys
    unfold parse_current_play_mode
    rw [foldEvts_skip (attrValStep "CurrentPlayMode") (fun s => rfl)]
  · intro xs ys
    unfold parse_transport_state
    rw [foldEvts_skip (attrValStep "TransportState") (fun s => rfl)]
  · intro xs ys
    unfold parse_av_transport_uri_metadata
    rw [foldEvts_skip (attrValStep "AVTransportURIMetaData") (fun s => rfl)]
  · intro xs ys
    unfold parse_current_track_metadata
    rw [foldEvts_skip (attrValStep "CurrentTrackMetaData") (fun s => rfl)]
  · intro xs ys
    unfold parse_transport_info
    rw [foldEvts_skip tiStep (fun s => rfl)]
  · intro xs ys
    unfold parse_supported_protocols
    rw [foldEvts_skip sinkStep (fun s => rfl)]
  · intro xs ys
    unfold deserialize_metadata
    rw [foldEvts_skip metaStep (fun s => rfl)]

/-- C10, witness: the error-skipping equations applied at the stream
holding a single reader error. -/
theorem option_extractors_total_witness :
    parse_last_change [XmlEvt.error] = parse_last_change [] ∧
    parse_current_play_mode [XmlEvt.error] = parse_current_play_mode [] ∧
    parse_transport_state [XmlEvt.error] = parse_transport_state [] ∧
    parse_av_transport_uri_metadata [XmlEvt.error] = parse_av_transport_uri_metadata [] ∧
    parse_current_track_metadata [XmlEvt.error] = parse_current_track_metadata [] ∧
    parse_transport_info [XmlEvt.error] = parse_transport_info [] ∧
    parse_supported_protocols [XmlEvt.error] = parse_supported_protocols [] ∧
    deserialize_metadata [XmlEvt.error] = deserialize_metadata [] :=
  ⟨option_extractors_total.2.2.2.2.2.2.2.2.1 [] [],
   option_extractors_total.2.2.2.2.2.2.2.2.2.1 [] [],
   option_extractors_total.2.2.2.2.2.2.2.2.2.2.1 [] [],
   option_extractors_total.2.2.2.2.2.2.2.2.2.2.2.1 [] [],
   option_extractors_total.2.2.2.2.2.2.2.2.2.2.2.2.1 [] [],
   option_extractors_total.2.2.2.2.2.2.2.2.2.2.2.2.2.1 [] [],
   option_extractors_total.2.2.2.2.2.2.2.2.2.2.2.2.2.2.1 [] [],
   option_extractors_total.2.2.2.2.2.2.2.2.2.2.2.2.2.2.2 [] []⟩

end UpnpParser
